import Mathlib

/-!
Verification of the opencensus-node span core.

Shallow embedding of the span model of packages/opencensus-core:
`base-span.ts` (BaseSpan, ChildSpan), `root-span.ts` (RootSpan), the
model types (`types.ts`), and the exporter buffer.

Modelling conventions:
* machine time (`Date.now()`) is passed in explicitly as a `Nat` argument
  `now`; the sentinel `UNINITIALIZED_DATE = 0` is kept, so a span is
  started / ended exactly when the corresponding field differs from 0,
  as in the source;
* JavaScript object references used for listener identity are modelled
  as `Nat` ids, so reference equality (`===`) becomes `Nat` equality;
* listener notification is observable: every lifecycle operation returns
  the list of `SpanEvent`s it delivered, in delivery order;
* `null` / absent optional values are modelled with `Option`;
* the `stackTrace` field is omitted: the source initializes it to a
  constant empty object and never reads or writes it.
-/

/-- SpanKind enum from types.ts (numeric enum: 0, 1, 2). -/
inductive SpanKind where
  | SPAN_KIND_UNSPECIFIED
  | SERVER
  | CLIENT
deriving DecidableEq, Repr

/-- Numeric value of the TypeScript enum member; used for JavaScript
truthiness tests on a SpanKind value (0 is falsy). -/
def SpanKind.toNat : SpanKind → Nat
  | .SPAN_KIND_UNSPECIFIED => 0
  | .SERVER => 1
  | .CLIENT => 2

/-- Attribute values: string | number | boolean. -/
inductive AttributeValue where
  | str (value : String)
  | num (value : Int)
  | bool (value : Bool)
deriving DecidableEq, Repr

/-- Attributes: a key-value record; insertion-ordered with last write
winning, as a JavaScript object behaves. -/
def AttributeMap := List (String × AttributeValue)
deriving DecidableEq, Repr

/-- A link, as pushed by BaseSpan.addLink. The attributes argument of
addLink is optional, hence `Option`. -/
structure Link where
  traceId : String
  spanId : String
  linkType : String
  attributes : Option AttributeMap
deriving DecidableEq, Repr

/-- Entries of the timeEvents array: annotations (from addAnnotation,
which is written addAnnot here) and message events. -/
inductive TimeEvent where
  | annot (description : String) (timestamp : Int) (attributes : Option AttributeMap)
  | messageEvent (mtype : String) (id : String)
deriving DecidableEq, Repr

/-- Span status, set by setStatus. -/
structure Status where
  code : Int
  message : String
deriving DecidableEq, Repr

/-- The SpanData record of types.ts.  `kind` is `Option SpanKind`
because the RootSpan constructor assigns `null` to it (none models
null); `some k` models an actual SpanKind value. -/
structure SpanData where
  traceId : String
  spanId : String
  parentSpanId : String
  name : String
  kind : Option SpanKind
  startTime : Nat
  endTime : Nat
  attributes : AttributeMap
  timeEvents : List TimeEvent
  links : List Link
  status : Option Status
  sameProcessAsParentSpan : Option Bool
deriving DecidableEq, Repr

/-- The sentinel for an unset date, from base-span.ts. -/
def UNINITIALIZED_DATE : Nat := 0

/-- A Partial SpanData argument (only the fields any caller in the
source ever supplies). -/
structure PartialSpanData where
  traceId : Option String
  spanId : Option String
  parentSpanId : Option String
  name : Option String
  kind : Option SpanKind
  startTime : Option Nat
  endTime : Option Nat
deriving DecidableEq, Repr

/-- The empty partial (an absent or empty spanData argument). -/
def emptyPartial : PartialSpanData := ⟨none, none, none, none, none, none, none⟩

/-- createSpanData from base-span.ts: defaults overridden by the fields
present in `base` (Object.assign semantics). -/
def createSpanData (base : PartialSpanData) : SpanData :=
  { traceId := base.traceId.getD ""
    spanId := base.spanId.getD ""
    parentSpanId := base.parentSpanId.getD ""
    name := base.name.getD ""
    kind := some (base.kind.getD SpanKind.SPAN_KIND_UNSPECIFIED)
    startTime := base.startTime.getD UNINITIALIZED_DATE
    endTime := base.endTime.getD UNINITIALIZED_DATE
    attributes := []
    timeEvents := []
    links := []
    status := none
    sameProcessAsParentSpan := none }

/-- The SpanContext record (traceId, spanId, options). -/
structure SpanContext where
  traceId : String
  spanId : String
  options : Option Nat
deriving DecidableEq, Repr

/-- A notification delivered to one listener: `atEnd = false` is an
onStartSpan call, `atEnd = true` an onEndSpan call, with the span data
that was passed. -/
structure SpanEvent where
  listener : Nat
  atEnd : Bool
  data : SpanData
deriving DecidableEq, Repr

/-- BaseSpan state: the backing data record, the `truncated` flag and
the listener list (listener object references as Nat ids). -/
structure BaseSpan where
  data : SpanData
  truncated : Bool
  listeners : List Nat
deriving DecidableEq, Repr

/-- The BaseSpan constructor: createSpanData(Object.assign(\x7bspanId:
randomSpanId()\x7d, spanData)).  The generated random span id is passed
in as `randomId`. -/
def mkBaseSpan (randomId : String) (psd : PartialSpanData) : BaseSpan :=
  ⟨createSpanData { psd with spanId := some (psd.spanId.getD randomId) }, false, []⟩

/-- The ChildSpan constructor: BaseSpan construction, then
sameProcessAsParentSpan = true. -/
def mkChildSpan (randomId : String) (psd : PartialSpanData) : BaseSpan :=
  let b := mkBaseSpan randomId psd
  { b with data := { b.data with sameProcessAsParentSpan := some true } }

/-- The started getter: startTime !== UNINITIALIZED_DATE. -/
def BaseSpan.started (s : BaseSpan) : Prop :=
  s.data.startTime ≠ UNINITIALIZED_DATE

instance (s : BaseSpan) : Decidable s.started :=
  inferInstanceAs (Decidable (s.data.startTime ≠ UNINITIALIZED_DATE))

/-- The ended getter: endTime !== UNINITIALIZED_DATE. -/
def BaseSpan.ended (s : BaseSpan) : Prop :=
  s.data.endTime ≠ UNINITIALIZED_DATE

instance (s : BaseSpan) : Decidable s.ended :=
  inferInstanceAs (Decidable (s.data.endTime ≠ UNINITIALIZED_DATE))

/-- registerSpanEventListener: this.listeners.push(listener). -/
def BaseSpan.registerSpanEventListener (s : BaseSpan) (listener : Nat) : BaseSpan :=
  { s with listeners := s.listeners ++ [listener] }

/-- unregisterSpanEventListener, translated exactly as written in
base-span.ts: this.listeners = this.listeners.filter(l =\x7e l === listener)
(the predicate keeps the elements for which it returns true). -/
def BaseSpan.unregisterSpanEventListener (s : BaseSpan) (listener : Nat) : BaseSpan :=
  { s with listeners := s.listeners.filter (fun l => l == listener) }

/-- getSpanContext: traceId, spanId, options: 0x1. -/
def BaseSpan.getSpanContext (s : BaseSpan) : SpanContext :=
  ⟨s.data.traceId, s.data.spanId, some 1⟩

/-- JavaScript object property write: replace in place if the key is
present, else append. -/
def setAttr : AttributeMap → String → AttributeValue → AttributeMap
  | [], key, value => [(key, value)]
  | (k, v) :: rest, key, value =>
    if k = key then (key, value) :: rest else (k, v) :: setAttr rest key value

/-- addAttribute: this.data.attributes[key] = value. -/
def BaseSpan.addAttribute (s : BaseSpan) (key : String) (value : AttributeValue) : BaseSpan :=
  { s with data := { s.data with attributes := setAttr s.data.attributes key value } }

/-- addAnnotation (written addAnnot): push an annotation time event. -/
def BaseSpan.addAnnot (s : BaseSpan) (description : String) (timestamp : Int)
    (attributes : Option AttributeMap) : BaseSpan :=
  { s with data :=
      { s.data with timeEvents :=
          s.data.timeEvents ++ [TimeEvent.annot description timestamp attributes] } }

/-- addLink: push a link. -/
def BaseSpan.addLink (s : BaseSpan) (traceId spanId linkType : String)
    (attributes : Option AttributeMap) : BaseSpan :=
  { s with data :=
      { s.data with links := s.data.links ++ [⟨traceId, spanId, linkType, attributes⟩] } }

/-- addMessageEvent: push a message time event. -/
def BaseSpan.addMessageEvent (s : BaseSpan) (mtype id : String) : BaseSpan :=
  { s with data :=
      { s.data with timeEvents := s.data.timeEvents ++ [TimeEvent.messageEvent mtype id] } }

/-- setStatus: this.data.status = \x7bcode, message\x7d. -/
def BaseSpan.setStatus (s : BaseSpan) (code : Int) (message : String) : BaseSpan :=
  { s with data := { s.data with status := some ⟨code, message⟩ } }

/-- start(): no-op if already started (a warning is logged), else set
startTime to the current time and notify every listener onStartSpan
with the updated data, in registration order. -/
def BaseSpan.start (s : BaseSpan) (now : Nat) : BaseSpan × List SpanEvent :=
  if s.started then (s, [])
  else
    let d := { s.data with startTime := now }
    ({ s with data := d }, s.listeners.map (fun l => ⟨l, false, d⟩))

/-- end(): no-op if already ended, no-op if not yet started, else set
endTime to the current time, notify every listener onEndSpan with the
updated data in registration order, then free the listener list.
The source method is end(); named endSpan here because end is a
reserved word in Lean. -/
def BaseSpan.endSpan (s : BaseSpan) (now : Nat) : BaseSpan × List SpanEvent :=
  if s.ended then (s, [])
  else if ¬ s.started then (s, [])
  else
    let d := { s.data with endTime := now }
    ({ s with data := d, listeners := [] }, s.listeners.map (fun l => ⟨l, true, d⟩))

/-- truncate(): this.truncated = true, then end(). -/
def BaseSpan.truncate (s : BaseSpan) (now : Nat) : BaseSpan × List SpanEvent :=
  BaseSpan.endSpan { s with truncated := true } now

/-- The spanContext field of a SpanOptions argument. -/
structure SpanContextOption where
  traceId : String
  spanId : String
deriving DecidableEq, Repr

/-- The SpanOptions argument of the RootSpan constructor.  The name
field is typed as required in types.ts, but the constructor tests it
for truthiness, so an absent or empty name is representable: `none`
models an absent field at run time, `some ""` an empty string. -/
structure SpanOptions where
  name : Option String
  spanContext : Option SpanContextOption
  kind : Option SpanKind
deriving DecidableEq, Repr

/-- RootSpan state: the inherited BaseSpan, the object reference of the
root itself (`selfId`, used when the root registers itself as a
listener on a child), and the child span list. -/
structure RootSpan where
  base : BaseSpan
  selfId : Nat
  spans : List BaseSpan
deriving DecidableEq, Repr

/-- The RootSpan constructor of root-span.ts.  `randomId` is the span
id generated by the BaseSpan constructor, `freshTraceId` the uuid
generated for a new trace.  Field by field:
traceId = options and spanContext and spanContext.traceId truthy ?
spanContext.traceId : fresh uuid; name = options and options.name
truthy ? options.name : the literal string undefined; parentSpanId is
assigned (spanContext.spanId or the empty string) only when options and
options.spanContext are present; kind = options and options.kind truthy
? options.kind : null (note: null, overriding the
SPAN_KIND_UNSPECIFIED default of createSpanData, and a kind argument
equal to SPAN_KIND_UNSPECIFIED = 0 is falsy);
sameProcessAsParentSpan = false. -/
def mkRootSpan (selfId : Nat) (randomId freshTraceId : String)
    (options : Option SpanOptions) : RootSpan :=
  let b := mkBaseSpan randomId emptyPartial
  let traceId : String :=
    match options with
    | some o =>
      match o.spanContext with
      | some sc => if sc.traceId ≠ "" then sc.traceId else freshTraceId
      | none => freshTraceId
    | none => freshTraceId
  let name : String :=
    match options with
    | some o =>
      match o.name with
      | some n => if n ≠ "" then n else "undefined"
      | none => "undefined"
    | none => "undefined"
  let parentSpanId : String :=
    match options with
    | some o =>
      match o.spanContext with
      | some sc => sc.spanId
      | none => b.data.parentSpanId
    | none => b.data.parentSpanId
  let kind : Option SpanKind :=
    match options with
    | some o =>
      match o.kind with
      | some k => if k.toNat ≠ 0 then some k else none
      | none => none
    | none => none
  ⟨{ b with data :=
      { b.data with
        traceId := traceId
        name := name
        parentSpanId := parentSpanId
        kind := kind
        sameProcessAsParentSpan := some false } },
    selfId, []⟩

/-- RootSpan inherits start() unchanged from BaseSpan. -/
def RootSpan.startR (r : RootSpan) (now : Nat) : RootSpan × List SpanEvent :=
  let p := r.base.start now
  ({ r with base := p.1 }, p.2)

/-- The child loop of RootSpan.end(): for each child, if
!span.ended and span.started then span.truncate(); children and
the delivered events in iteration order. -/
def truncateOpen (now : Nat) : List BaseSpan → List BaseSpan × List SpanEvent
  | [] => ([], [])
  | c :: rest =>
    let p := if ¬ c.ended ∧ c.started then c.truncate now else (c, [])
    let q := truncateOpen now rest
    (p.1 :: q.1, p.2 ++ q.2)

/-- RootSpan.end(): truncate every still-open child, then the base end
sequence (super.end()). -/
def RootSpan.endR (r : RootSpan) (now : Nat) : RootSpan × List SpanEvent :=
  let t := truncateOpen now r.spans
  let p := r.base.endSpan now
  (⟨p.1, r.selfId, t.1⟩, t.2 ++ p.2)

/-- truncate() on a RootSpan: the truncated flag is set, then this.end()
dispatches to the RootSpan end override. -/
def RootSpan.truncateR (r : RootSpan) (now : Nat) : RootSpan × List SpanEvent :=
  RootSpan.endR { r with base := { r.base with truncated := true } } now

/-- RootSpan.onStartSpan: forward the event to this object's own
listeners (the root acting as a SpanEventListener relay). -/
def RootSpan.onStartSpan (r : RootSpan) (d : SpanData) : List SpanEvent :=
  r.base.listeners.map (fun l => ⟨l, false, d⟩)

/-- RootSpan.onEndSpan: forward the event to this object's own
listeners. -/
def RootSpan.onEndSpan (r : RootSpan) (d : SpanData) : List SpanEvent :=
  r.base.listeners.map (fun l => ⟨l, true, d⟩)

/-- startChildSpan(name, kind): null if the root is ended, null if the
root is not started; otherwise construct a ChildSpan with the root's
traceId, parentSpanId = the root's spanId, the given name and kind,
register the root as the child's listener, start the child, push it on
the child list and return it.  `childRandomId` is the span id the
BaseSpan constructor generates for the child.  Returns (returned child,
updated root, events delivered during the call). -/
def RootSpan.startChildSpan (r : RootSpan) (childRandomId name : String)
    (kind : SpanKind) (now : Nat) : Option BaseSpan × RootSpan × List SpanEvent :=
  if r.base.ended then (none, r, [])
  else if ¬ r.base.started then (none, r, [])
  else
    let c0 := mkChildSpan childRandomId
      ⟨some r.base.data.traceId, none, some r.base.data.spanId,
        some name, some kind, none, none⟩
    let c1 := c0.registerSpanEventListener r.selfId
    let p := c1.start now
    (some p.1, { r with spans := r.spans ++ [p.1] }, p.2)

/-- The public operations of a BaseSpan, used to quantify over
everything a caller can do to a span after creation. -/
inductive SpanOp where
  | start (now : Nat)
  | endOp (now : Nat)
  | truncate (now : Nat)
  | addAttribute (key : String) (value : AttributeValue)
  | addAnnot (description : String) (timestamp : Int) (attributes : Option AttributeMap)
  | addLink (traceId spanId linkType : String) (attributes : Option AttributeMap)
  | addMessageEvent (mtype id : String)
  | setStatus (code : Int) (message : String)
  | register (listener : Nat)
  | unregister (listener : Nat)

/-- Interpretation of one BaseSpan operation. -/
def applyOp (op : SpanOp) (s : BaseSpan) : BaseSpan × List SpanEvent :=
  match op with
  | .start now => s.start now
  | .endOp now => s.endSpan now
  | .truncate now => s.truncate now
  | .addAttribute k v => (s.addAttribute k v, [])
  | .addAnnot d t a => (s.addAnnot d t a, [])
  | .addLink t sp ty a => (s.addLink t sp ty a, [])
  | .addMessageEvent m i => (s.addMessageEvent m i, [])
  | .setStatus c m => (s.setStatus c m, [])
  | .register l => (s.registerSpanEventListener l, [])
  | .unregister l => (s.unregisterSpanEventListener l, [])

/-- Interpretation of a sequence of BaseSpan operations, accumulating
the delivered events. -/
def applyOps (ops : List SpanOp) (s : BaseSpan) : BaseSpan × List SpanEvent :=
  match ops with
  | [] => (s, [])
  | op :: rest =>
    let p := applyOp op s
    let q := applyOps rest p.1
    (q.1, p.2 ++ q.2)

/-- The public operations of a RootSpan: every BaseSpan operation
(end and truncate dispatching to the RootSpan overrides) plus
startChildSpan. -/
inductive RootOp where
  | spanOp (op : SpanOp)
  | startChild (childRandomId name : String) (kind : SpanKind) (now : Nat)

/-- Interpretation of one RootSpan operation. -/
def applyRootOp (op : RootOp) (r : RootSpan) : RootSpan × List SpanEvent :=
  match op with
  | .spanOp (.endOp now) => r.endR now
  | .spanOp (.truncate now) => r.truncateR now
  | .spanOp op =>
    let p := applyOp op r.base
    ({ r with base := p.1 }, p.2)
  | .startChild cid nm k now =>
    let p := r.startChildSpan cid nm k now
    (p.2.1, p.2.2)

/-- Interpretation of a sequence of RootSpan operations. -/
def applyRootOps (ops : List RootOp) (r : RootSpan) : RootSpan × List SpanEvent :=
  match ops with
  | [] => (r, [])
  | op :: rest =>
    let p := applyRootOp op r
    let q := applyRootOps rest p.1
    (q.1, p.2 ++ q.2)

/-- Modelled from the spec: the ExporterBuffer implementation
(exporter-buffer.ts) is not under src, only its callers, its interface
and its tests are; this model follows spec section 4.5.  `published`
records the batch argument of every publish call, in call order; a
pending flush timer is the boolean `timerArmed`.  The size-trigger
comparison is fixed by the in-src test (test-exporter-buffer.ts, force
flush: after bufferSize additions the queue still holds them all, and
the next addition empties it), so a flush fires when the queue length
exceeds bufferSize. -/
structure ExporterBuffer where
  bufferSize : Nat
  queue : List SpanData
  timerArmed : Bool
  published : List (List SpanData)
deriving DecidableEq, Repr

/-- A fresh buffer with capacity `n`: empty queue, no pending timer, no
publish call made yet. -/
def mkExporterBuffer (n : Nat) : ExporterBuffer := ⟨n, [], false, []⟩

/-- Modelled from the spec: flush publishes the full queue, then clears
it and cancels any pending timer. -/
def ExporterBuffer.flush (b : ExporterBuffer) : ExporterBuffer :=
  ⟨b.bufferSize, [], false, b.published ++ [b.queue]⟩

/-- Modelled from the spec: setBufferSize returns the buffer (fluent
reconfiguration). -/
def ExporterBuffer.setBufferSize (b : ExporterBuffer) (n : Nat) : ExporterBuffer :=
  { b with bufferSize := n }

/-- Modelled from the spec: addToBuffer appends the record to the
queue; if the queue length exceeds bufferSize (the comparison the
in-src test forces), flush immediately; otherwise arm the flush timer
if none is pending. -/
def ExporterBuffer.addToBuffer (b : ExporterBuffer) (s : SpanData) : ExporterBuffer :=
  let q := b.queue ++ [s]
  if b.bufferSize < q.length then
    ExporterBuffer.flush { b with queue := q }
  else if b.timerArmed then { b with queue := q }
  else { b with queue := q, timerArmed := true }

/-- Modelled from the spec: when the pending timer fires, flush
whatever is currently queued and clear the timer state. -/
def ExporterBuffer.timerFire (b : ExporterBuffer) : ExporterBuffer :=
  ExporterBuffer.flush b

/-- addToBuffer iterated over a list of records, first record added
first. -/
def addAll : List SpanData → ExporterBuffer → ExporterBuffer
  | [], b => b
  | r :: rest, b => addAll rest (b.addToBuffer r)

/-- Truthiness of the name option: absent options, an absent name field
or an empty name string are all falsy in the constructor's test. -/
def nameFalsy (options : Option SpanOptions) : Prop :=
  match options with
  | none => True
  | some o => o.name = none ∨ o.name = some ""

/-- What the spec says happens to one child when the root ends: a child
that is started and not ended is force-closed (endTime stamped,
truncated flag set, listeners released by its end sequence); every
other child is untouched. -/
def forceEnd (now : Nat) (c : BaseSpan) : BaseSpan :=
  if c.started ∧ ¬ c.ended then ⟨{ c.data with endTime := now }, true, []⟩ else c

/-- The end-hook notifications delivered to the children's listeners
when the root ends, in child order: each still-open child notifies its
own listeners with its stamped record, closed children notify nobody. -/
def childEndEvents (now : Nat) : List BaseSpan → List SpanEvent
  | [] => []
  | c :: rest =>
    (if c.started ∧ ¬ c.ended then
        c.listeners.map (fun l => SpanEvent.mk l true { c.data with endTime := now })
      else []) ++ childEndEvents now rest

/-- The child a live root builds and returns from startChildSpan: a
ChildSpan with the root's traceId, parentSpanId = the root's spanId,
the supplied name and kind, the root registered as its only listener,
already started at the supplied time. -/
def childAfter (r : RootSpan) (cid nm : String) (k : SpanKind) (now : Nat) : BaseSpan :=
  ⟨{ traceId := r.base.data.traceId
     spanId := cid
     parentSpanId := r.base.data.spanId
     name := nm
     kind := some k
     startTime := now
     endTime := UNINITIALIZED_DATE
     attributes := []
     timeEvents := []
     links := []
     status := none
     sameProcessAsParentSpan := some true },
    false, [r.selfId]⟩

/-- The identity fields of a span record. -/
def idFields (d : SpanData) : String × String × String × Option Bool :=
  (d.traceId, d.spanId, d.parentSpanId, d.sameProcessAsParentSpan)

/-- A started child span used by concrete witnesses: child of a root
with span id rs in trace rt, listener 9 (the root) attached, started at
time 2. -/
def wOpen : BaseSpan :=
  (((mkChildSpan "c1" ⟨some "rt", none, some "rs", some "child1", some SpanKind.CLIENT,
      none, none⟩).registerSpanEventListener 9).start 2).1

/-- An ended child span used by concrete witnesses: like wOpen but
already ended at time 3. -/
def wEnded : BaseSpan :=
  ((((mkChildSpan "c2" ⟨some "rt", none, some "rs", some "child2", some SpanKind.CLIENT,
      none, none⟩).registerSpanEventListener 9).start 2).1.endSpan 3).1

/-- A started root (id 9) whose child list holds one open child and one
ended child, as after two startChildSpan calls of which the first child
was ended by its caller. -/
def wRoot : RootSpan :=
  ⟨((mkRootSpan 9 "rs" "rt" none).startR 1).1.base, 9, [wOpen, wEnded]⟩

/-- A live (started, not ended) root with id 3 used by concrete
witnesses. -/
def wLiveRoot : RootSpan := ((mkRootSpan 3 "rsid" "rtid" none).startR 1).1

/-! Helper lemmas about the span state machine. -/

theorem start_of_started (s : BaseSpan) (now : Nat) (h : s.started) :
    s.start now = (s, []) := by
  unfold BaseSpan.start
  rw [if_pos h]

theorem endSpan_of_ended (s : BaseSpan) (now : Nat) (h : s.ended) :
    s.endSpan now = (s, []) := by
  unfold BaseSpan.endSpan
  rw [if_pos h]

theorem endSpan_of_not_started (s : BaseSpan) (now : Nat) (h : ¬ s.started) :
    s.endSpan now = (s, []) := by
  unfold BaseSpan.endSpan
  by_cases he : s.ended
  · rw [if_pos he]
  · rw [if_neg he, if_pos h]

theorem start_of_not_started (s : BaseSpan) (now : Nat) (h : ¬ s.started) :
    s.start now =
      ({ s with data := { s.data with startTime := now } },
        s.listeners.map (fun l => SpanEvent.mk l false { s.data with startTime := now })) := by
  unfold BaseSpan.start
  rw [if_neg h]

theorem endSpan_of_open (s : BaseSpan) (now : Nat) (hs : s.started) (he : ¬ s.ended) :
    s.endSpan now =
      ({ s with data := { s.data with endTime := now }, listeners := [] },
        s.listeners.map (fun l => SpanEvent.mk l true { s.data with endTime := now })) := by
  unfold BaseSpan.endSpan
  rw [if_neg he, if_neg (not_not_intro hs)]

theorem endSpan_startTime (s : BaseSpan) (now : Nat) :
    (s.endSpan now).1.data.startTime = s.data.startTime := by
  unfold BaseSpan.endSpan
  split_ifs <;> rfl

/-! Claim C1.  The source line in base-span.ts is
this.listeners = this.listeners.filter(l =\x7e l === listener):
the filter KEEPS the entries identical to the listener being
unregistered and drops every other listener, the opposite of removal.
The in-repo test (test-tracer.ts, should not forward span events to
unregistered listeners) and the spec both require removal. -/

/-- Claim C1 (code bug, evaluation at the failing input): on a span
with listener list [1, 2], unregistering listener 2 leaves exactly [2]
registered, not [1]: the entry identical to the unregistered listener
is kept and the other listener is dropped. -/
theorem claim1_unregister_keeps_only_target :
    ((((mkBaseSpan "s" emptyPartial).registerSpanEventListener 1).registerSpanEventListener
        2).unregisterSpanEventListener 2).listeners = [2] ∧
    ((((mkBaseSpan "s" emptyPartial).registerSpanEventListener 1).registerSpanEventListener
        2).unregisterSpanEventListener 2).listeners ≠ [1] := by
  decide

/-! Claim C3.  The RootSpan constructor line is
this.data.kind = options and options.kind ? options.kind : null,
which stores null (modelled as none) whenever no truthy kind is
supplied, overriding the SPAN_KIND_UNSPECIFIED default that
createSpanData had installed. -/

/-- Claim C3 (code bug, evaluation at the failing input): the
createSpanData default for kind is SPAN_KIND_UNSPECIFIED, but a
RootSpan constructed with no options, or with options lacking a kind,
ends up with kind = null (none), not SPAN_KIND_UNSPECIFIED. -/
theorem claim3_default_kind_is_null :
    (createSpanData emptyPartial).kind = some SpanKind.SPAN_KIND_UNSPECIFIED ∧
    (mkRootSpan 0 "sid" "tid" none).base.data.kind = none ∧
    (mkRootSpan 0 "sid" "tid" (some ⟨some "root", none, none⟩)).base.data.kind = none ∧
    (mkRootSpan 0 "sid" "tid" none).base.data.kind ≠ some SpanKind.SPAN_KIND_UNSPECIFIED := by
  decide

/-- Claim C10: a RootSpan constructed without a truthy name (no options
object, or an absent or empty name field) gets the literal string
undefined as its name, not an empty string and not an unset value. -/
theorem claim10_default_name (selfId : Nat) (sid tid : String)
    (options : Option SpanOptions) (h : nameFalsy options) :
    (mkRootSpan selfId sid tid options).base.data.name = "undefined" := by
  cases options with
  | none => rfl
  | some o =>
    obtain ⟨nm, sc, k⟩ := o
    rcases h with h | h
    · change nm = none at h
      subst h
      rfl
    · change nm = some "" at h
      subst h
      rfl

/-- Witness for claim C10 at a concrete input: options present with an
empty name. -/
theorem claim10_default_name_witness :
    nameFalsy (some ⟨some "", none, none⟩) ∧
    (mkRootSpan 0 "a" "b" (some ⟨some "", none, none⟩)).base.data.name = "undefined" :=
  ⟨Or.inr rfl, claim10_default_name 0 "a" "b" (some ⟨some "", none, none⟩) (Or.inr rfl)⟩

/-- Claim C6: end() on a span that is not yet started, or already
ended, returns the span completely unchanged and delivers no listener
notification (and, being a total function, throws nothing); in
particular end() before start() never sets endTime or fabricates a
start time. -/
theorem claim6_end_guards (s : BaseSpan) (now : Nat) :
    (¬ s.started → s.endSpan now = (s, [])) ∧ (s.ended → s.endSpan now = (s, [])) :=
  ⟨fun h => endSpan_of_not_started s now h, fun h => endSpan_of_ended s now h⟩

/-- Witness for claim C6: a never-started span is untouched by end(),
and an already-ended span is untouched by a second end(). -/
theorem claim6_end_guards_witness :
    (¬ (mkBaseSpan "w" emptyPartial).started ∧
      (mkBaseSpan "w" emptyPartial).endSpan 5 = (mkBaseSpan "w" emptyPartial, [])) ∧
    ((((mkBaseSpan "w" emptyPartial).start 3).1.endSpan 4).1.ended ∧
      (((mkBaseSpan "w" emptyPartial).start 3).1.endSpan 4).1.endSpan 9 =
        ((((mkBaseSpan "w" emptyPartial).start 3).1.endSpan 4).1, [])) :=
  ⟨⟨by decide, (claim6_end_guards (mkBaseSpan "w" emptyPartial) 5).1 (by decide)⟩,
    by decide,
    (claim6_end_guards (((mkBaseSpan "w" emptyPartial).start 3).1.endSpan 4).1 9).2
      (by decide)⟩

/-! Helper lemmas for the terminal-state claim: once a span is both
started and ended, no operation emits an event, and the span stays
started and ended. -/

theorem applyOp_closed (op : SpanOp) (s : BaseSpan) (hs : s.started) (he : s.ended) :
    (applyOp op s).2 = [] ∧ (applyOp op s).1.started ∧ (applyOp op s).1.ended := by
  cases op with
  | start now =>
    show (s.start now).2 = [] ∧ (s.start now).1.started ∧ (s.start now).1.ended
    rw [start_of_started s now hs]
    exact ⟨rfl, hs, he⟩
  | endOp now =>
    show (s.endSpan now).2 = [] ∧ (s.endSpan now).1.started ∧ (s.endSpan now).1.ended
    rw [endSpan_of_ended s now he]
    exact ⟨rfl, hs, he⟩
  | truncate now =>
    show (BaseSpan.endSpan { s with truncated := true } now).2 = [] ∧
      (BaseSpan.endSpan { s with truncated := true } now).1.started ∧
      (BaseSpan.endSpan { s with truncated := true } now).1.ended
    rw [endSpan_of_ended { s with truncated := true } now he]
    exact ⟨rfl, hs, he⟩
  | addAttribute k v => exact ⟨rfl, hs, he⟩
  | addAnnot d t a => exact ⟨rfl, hs, he⟩
  | addLink t sp ty a => exact ⟨rfl, hs, he⟩
  | addMessageEvent m i => exact ⟨rfl, hs, he⟩
  | setStatus c m => exact ⟨rfl, hs, he⟩
  | register l => exact ⟨rfl, hs, he⟩
  | unregister l => exact ⟨rfl, hs, he⟩

theorem applyOps_closed (ops : List SpanOp) (s : BaseSpan) (hs : s.started)
    (he : s.ended) :
    (applyOps ops s).2 = [] ∧ (applyOps ops s).1.started ∧ (applyOps ops s).1.ended := by
  induction ops generalizing s with
  | nil => exact ⟨rfl, hs, he⟩
  | cons op rest ih =>
    obtain ⟨h1, h2, h3⟩ := applyOp_closed op s hs he
    obtain ⟨g1, g2, g3⟩ := ih (applyOp op s).1 h2 h3
    refine ⟨?_, g2, g3⟩
    show (applyOp op s).2 ++ (applyOps rest (applyOp op s).1).2 = []
    rw [h1, g1]
    rfl

/-- Claim C9: once end() has completed on a started, not-yet-ended span
(endTime set to the current time, end hooks delivered to the registered
listeners in registration order), the listener list is released, and no
sequence of later operations (start, end, truncate, any mutator,
register or unregister) ever delivers another notification. -/
theorem claim9_terminal_after_end (s : BaseSpan) (now : Nat) (ops : List SpanOp)
    (hs : s.started) (hne : ¬ s.ended) (hnow : now ≠ UNINITIALIZED_DATE) :
    (s.endSpan now).1.data.endTime = now ∧
    (s.endSpan now).2 =
      s.listeners.map (fun l => SpanEvent.mk l true { s.data with endTime := now }) ∧
    (s.endSpan now).1.listeners = [] ∧
    (applyOps ops (s.endSpan now).1).2 = [] := by
  have h1 := endSpan_of_open s now hs hne
  have hs1 : (s.endSpan now).1.started := by
    show (s.endSpan now).1.data.startTime ≠ UNINITIALIZED_DATE
    rw [endSpan_startTime]
    exact hs
  have he1 : (s.endSpan now).1.ended := by
    rw [h1]
    exact hnow
  exact ⟨by rw [h1], by rw [h1], by rw [h1], (applyOps_closed ops _ hs1 he1).1⟩

/-- Witness for claim C9 at a concrete input: a started span with one
listener, ended at time 6, then subjected to a second start, a second
end, a truncate, a registration and two mutators. -/
theorem claim9_terminal_after_end_witness :
    (((mkBaseSpan "w" emptyPartial).registerSpanEventListener 4).start 3).1.started ∧
    ¬ (((mkBaseSpan "w" emptyPartial).registerSpanEventListener 4).start 3).1.ended ∧
    (6 : Nat) ≠ UNINITIALIZED_DATE ∧
    ((((mkBaseSpan "w" emptyPartial).registerSpanEventListener 4).start 3).1.endSpan
      6).1.listeners = [] ∧
    (applyOps
      [SpanOp.start 7, SpanOp.endOp 8, SpanOp.truncate 9, SpanOp.register 11,
        SpanOp.addAttribute "k" (AttributeValue.str "v"), SpanOp.setStatus 2 "m"]
      ((((mkBaseSpan "w" emptyPartial).registerSpanEventListener 4).start 3).1.endSpan
        6).1).2 = [] := by
  have h := claim9_terminal_after_end
    (((mkBaseSpan "w" emptyPartial).registerSpanEventListener 4).start 3).1 6
    [SpanOp.start 7, SpanOp.endOp 8, SpanOp.truncate 9, SpanOp.register 11,
      SpanOp.addAttribute "k" (AttributeValue.str "v"), SpanOp.setStatus 2 "m"]
    (by decide) (by decide) (by decide)
  exact ⟨by decide, by decide, by decide, h.2.2.1, h.2.2.2⟩

/-! Helper definitions and lemmas for the root-end claim.  forceEnd and
childEndEvents describe, listwise, what the spec says the child loop of
RootSpan.end() does; truncateOpen_spec proves that the translated loop
agrees with that description. -/

theorem truncate_of_open (c : BaseSpan) (now : Nat) (hs : c.started) (he : ¬ c.ended) :
    c.truncate now =
      (⟨{ c.data with endTime := now }, true, []⟩,
        c.listeners.map (fun l => SpanEvent.mk l true { c.data with endTime := now })) := by
  unfold BaseSpan.truncate
  have hs' : ({ c with truncated := true } : BaseSpan).started := hs
  have he' : ¬ ({ c with truncated := true } : BaseSpan).ended := he
  rw [endSpan_of_open _ now hs' he']

theorem truncateOpen_spec (now : Nat) (spans : List BaseSpan) :
    truncateOpen now spans = (spans.map (forceEnd now), childEndEvents now spans) := by
  induction spans with
  | nil => rfl
  | cons c rest ih =>
    by_cases h : c.started ∧ ¬ c.ended
    · have hcond : ¬ c.ended ∧ c.started := ⟨h.2, h.1⟩
      simp only [truncateOpen, ih, forceEnd, childEndEvents, if_pos h, if_pos hcond,
        truncate_of_open c now h.1 h.2, List.map_cons]
    · have hcond : ¬ (¬ c.ended ∧ c.started) := fun hc => h ⟨hc.2, hc.1⟩
      simp only [truncateOpen, ih, forceEnd, childEndEvents, if_neg h, if_neg hcond,
        List.map_cons, List.nil_append]

/-- Claim C4: RootSpan.end() forces truncate() on exactly the children
that are started but not yet ended at that moment (each gets its
endTime stamped to the current time, becomes ended, and its end hook
fires to its listeners), leaves every already-ended child (and every
never-started child) completely unchanged, and only then performs the
base end sequence on the root itself, the child notifications coming
before the root's own. -/
theorem claim4_root_end (r : RootSpan) (now : Nat) (hnow : now ≠ UNINITIALIZED_DATE) :
    (r.endR now).1.spans = r.spans.map (forceEnd now) ∧
    (r.endR now).2 = childEndEvents now r.spans ++ (r.base.endSpan now).2 ∧
    (r.endR now).1.base = (r.base.endSpan now).1 ∧
    (∀ c ∈ r.spans, c.ended → forceEnd now c = c) ∧
    (∀ c ∈ r.spans, ¬ c.started → forceEnd now c = c) ∧
    (∀ c ∈ r.spans, c.started → ¬ c.ended →
      forceEnd now c = (c.truncate now).1 ∧
      (forceEnd now c).data.endTime = now ∧ (forceEnd now c).ended ∧
      (c.truncate now).2 =
        c.listeners.map (fun l => SpanEvent.mk l true { c.data with endTime := now })) := by
  have ht := truncateOpen_spec now r.spans
  refine ⟨?_, ?_, rfl, ?_, ?_, ?_⟩
  · show (truncateOpen now r.spans).1 = _
    rw [ht]
  · show (truncateOpen now r.spans).2 ++ (r.base.endSpan now).2 = _
    rw [ht]
  · intro c _ hc
    unfold forceEnd
    rw [if_neg (fun h => h.2 hc)]
  · intro c _ hc
    unfold forceEnd
    rw [if_neg (fun h => hc h.1)]
  · intro c _ hs hc
    have h := truncate_of_open c now hs hc
    refine ⟨?_, ?_, ?_, ?_⟩
    · unfold forceEnd
      rw [if_pos ⟨hs, hc⟩, h]
    · unfold forceEnd
      rw [if_pos ⟨hs, hc⟩]
    · unfold forceEnd BaseSpan.ended
      rw [if_pos ⟨hs, hc⟩]
      exact hnow
    · rw [h]

/-- Witness for claim C4 at a concrete input: ending wRoot at time 5
force-closes exactly the open child. -/
theorem claim4_root_end_witness :
    (5 : Nat) ≠ UNINITIALIZED_DATE ∧
    (wRoot.endR 5).1.spans = [forceEnd 5 wOpen, forceEnd 5 wEnded] ∧
    wEnded.ended ∧ forceEnd 5 wEnded = wEnded ∧
    wOpen.started ∧ ¬ wOpen.ended ∧
    forceEnd 5 wOpen = (wOpen.truncate 5).1 ∧
    (forceEnd 5 wOpen).data.endTime = 5 := by
  have h := claim4_root_end wRoot 5 (by decide)
  refine ⟨by decide, h.1, by decide, ?_, by decide, by decide, ?_, ?_⟩
  · exact h.2.2.2.1 wEnded (by decide) (by decide)
  · exact (h.2.2.2.2.2 wOpen (by decide) (by decide) (by decide)).1
  · exact (h.2.2.2.2.2 wOpen (by decide) (by decide) (by decide)).2.1

/-! Helper lemmas for the child-creation claims. -/

theorem startChildSpan_of_live (r : RootSpan) (cid nm : String) (k : SpanKind)
    (now : Nat) (hE : ¬ r.base.ended) (hS : r.base.started) :
    r.startChildSpan cid nm k now =
      (some (childAfter r cid nm k now),
        { r with spans := r.spans ++ [childAfter r cid nm k now] },
        [SpanEvent.mk r.selfId false (childAfter r cid nm k now).data]) := by
  have hc : ¬ ((mkChildSpan cid
      ⟨some r.base.data.traceId, none, some r.base.data.spanId, some nm, some k,
        none, none⟩).registerSpanEventListener r.selfId).started :=
    fun hh => hh rfl
  simp only [RootSpan.startChildSpan, if_neg hE, if_neg (not_not_intro hS),
    start_of_not_started _ now hc]
  rfl

/-- Claim C7: startChildSpan on a root that is already ended or not yet
started returns null, changes nothing and notifies nobody; on a live
root it returns a new ChildSpan that is started at the current time,
carries the supplied name and kind and generated span id, is flagged
same-process-as-parent, has exactly the root registered as listener,
is appended at the back of the root's child list (so list order is
creation order), while the root's own span state is untouched, and the
only notification delivered is the child's start event to the root. -/
theorem claim7_startChildSpan (r : RootSpan) (cid nm : String) (k : SpanKind)
    (now : Nat) :
    ((r.base.ended ∨ ¬ r.base.started) → r.startChildSpan cid nm k now = (none, r, [])) ∧
    (¬ r.base.ended → r.base.started →
      ((r.startChildSpan cid nm k now).1.map fun c => c.listeners) = some [r.selfId] ∧
      ((r.startChildSpan cid nm k now).1.map fun c => c.data.startTime) = some now ∧
      ((r.startChildSpan cid nm k now).1.map fun c => c.data.name) = some nm ∧
      ((r.startChildSpan cid nm k now).1.map fun c => c.data.kind) = some (some k) ∧
      ((r.startChildSpan cid nm k now).1.map fun c => c.data.spanId) = some cid ∧
      ((r.startChildSpan cid nm k now).1.map fun c => c.data.sameProcessAsParentSpan) =
        some (some true) ∧
      (now ≠ UNINITIALIZED_DATE →
        ((r.startChildSpan cid nm k now).1.map fun c => decide c.started) = some true) ∧
      (r.startChildSpan cid nm k now).2.1.spans =
        r.spans ++ (r.startChildSpan cid nm k now).1.toList ∧
      (r.startChildSpan cid nm k now).2.1.base = r.base ∧
      (r.startChildSpan cid nm k now).2.2 =
        (r.startChildSpan cid nm k now).1.toList.map
          (fun c => SpanEvent.mk r.selfId false c.data)) := by
  constructor
  · intro h
    unfold RootSpan.startChildSpan
    by_cases hE : r.base.ended
    · rw [if_pos hE]
    · rw [if_neg hE, if_pos (h.resolve_left hE)]
  · intro hE hS
    rw [startChildSpan_of_live r cid nm k now hE hS]
    refine ⟨rfl, rfl, rfl, rfl, rfl, rfl, ?_, rfl, rfl, rfl⟩
    intro hnow
    show some (decide ((childAfter r cid nm k now).started)) = some true
    have : (childAfter r cid nm k now).started := hnow
    simp [this]

/-- Witness for claim C7 at concrete inputs: child creation on the live
root wLiveRoot succeeds with the root as only listener and the child
appended, and child creation on an unstarted root returns null with the
root unchanged. -/
theorem claim7_startChildSpan_witness :
    ¬ wLiveRoot.base.ended ∧ wLiveRoot.base.started ∧
    ((wLiveRoot.startChildSpan "cid" "nm" SpanKind.CLIENT 2).1.map
      fun c => c.listeners) = some [3] ∧
    (wLiveRoot.startChildSpan "cid" "nm" SpanKind.CLIENT 2).2.1.spans =
      wLiveRoot.spans ++ (wLiveRoot.startChildSpan "cid" "nm" SpanKind.CLIENT 2).1.toList ∧
    ((mkRootSpan 3 "rsid" "rtid" none).base.ended ∨
      ¬ (mkRootSpan 3 "rsid" "rtid" none).base.started) ∧
    (mkRootSpan 3 "rsid" "rtid" none).startChildSpan "cid" "nm" SpanKind.CLIENT 2 =
      (none, mkRootSpan 3 "rsid" "rtid" none, []) := by
  have h := claim7_startChildSpan wLiveRoot "cid" "nm" SpanKind.CLIENT 2
  have hgood := h.2 (by decide) (by decide)
  have h2 := claim7_startChildSpan (mkRootSpan 3 "rsid" "rtid" none) "cid" "nm"
    SpanKind.CLIENT 2
  exact ⟨by decide, by decide, hgood.1, hgood.2.2.2.2.2.2.2.1,
    Or.inr (by decide), h2.1 (Or.inr (by decide))⟩

/-! Identity-field preservation machinery for claim C8: the identity
fields of a span record (traceId, spanId, parentSpanId,
sameProcessAsParentSpan) are written only at construction; no public
operation changes them afterwards. -/

theorem endSpan_idFields (s : BaseSpan) (now : Nat) :
    idFields (s.endSpan now).1.data = idFields s.data := by
  unfold BaseSpan.endSpan
  split_ifs <;> rfl

theorem applyOp_idFields (op : SpanOp) (s : BaseSpan) :
    idFields (applyOp op s).1.data = idFields s.data := by
  cases op with
  | start now =>
    show idFields (s.start now).1.data = idFields s.data
    unfold BaseSpan.start
    split_ifs <;> rfl
  | endOp now => exact endSpan_idFields s now
  | truncate now => exact endSpan_idFields { s with truncated := true } now
  | addAttribute k v => rfl
  | addAnnot d t a => rfl
  | addLink t sp ty a => rfl
  | addMessageEvent m i => rfl
  | setStatus c m => rfl
  | register l => rfl
  | unregister l => rfl

theorem applyOps_idFields (ops : List SpanOp) (s : BaseSpan) :
    idFields (applyOps ops s).1.data = idFields s.data := by
  induction ops generalizing s with
  | nil => rfl
  | cons op rest ih =>
    show idFields (applyOps rest (applyOp op s).1).1.data = idFields s.data
    rw [ih, applyOp_idFields]

theorem forceEnd_idFields (now : Nat) (c : BaseSpan) :
    idFields (forceEnd now c).data = idFields c.data := by
  unfold forceEnd
  split_ifs <;> rfl

theorem map_forceEnd_idFields (now : Nat) (l : List BaseSpan) :
    (l.map (forceEnd now)).map (fun c => idFields c.data) =
      l.map (fun c => idFields c.data) := by
  induction l with
  | nil => rfl
  | cons c rest ih => simp only [List.map_cons, ih, forceEnd_idFields]

theorem applyRootOp_base_idFields (op : RootOp) (r : RootSpan) :
    idFields (applyRootOp op r).1.base.data = idFields r.base.data := by
  cases op with
  | spanOp sop =>
    cases sop with
    | endOp now => exact endSpan_idFields r.base now
    | truncate now =>
      show idFields ((BaseSpan.endSpan { r.base with truncated := true } now).1.data) = _
      rw [endSpan_idFields]
    | start now => exact applyOp_idFields (SpanOp.start now) r.base
    | addAttribute k v => rfl
    | addAnnot d t a => rfl
    | addLink t sp ty a => rfl
    | addMessageEvent m i => rfl
    | setStatus c m => rfl
    | register l => rfl
    | unregister l => rfl
  | startChild cid nm k now =>
    show idFields (r.startChildSpan cid nm k now).2.1.base.data = idFields r.base.data
    unfold RootSpan.startChildSpan
    split_ifs <;> rfl

theorem applyRootOps_base_idFields (ops : List RootOp) (r : RootSpan) :
    idFields (applyRootOps ops r).1.base.data = idFields r.base.data := by
  induction ops generalizing r with
  | nil => rfl
  | cons op rest ih =>
    show idFields (applyRootOps rest (applyRootOp op r).1).1.base.data = _
    rw [ih, applyRootOp_base_idFields]

theorem applyRootOp_spans (op : RootOp) (r : RootSpan) :
    ∃ ext, (applyRootOp op r).1.spans.map (fun c => idFields c.data) =
      r.spans.map (fun c => idFields c.data) ++ ext := by
  cases op with
  | spanOp sop =>
    cases sop with
    | endOp now =>
      refine ⟨[], ?_⟩
      show ((truncateOpen now r.spans).1.map _) = _
      rw [truncateOpen_spec now r.spans]
      show ((r.spans.map (forceEnd now)).map _) = _
      rw [map_forceEnd_idFields, List.append_nil]
    | truncate now =>
      refine ⟨[], ?_⟩
      show ((truncateOpen now r.spans).1.map _) = _
      rw [truncateOpen_spec now r.spans]
      show ((r.spans.map (forceEnd now)).map _) = _
      rw [map_forceEnd_idFields, List.append_nil]
    | start now => exact ⟨[], (List.append_nil _).symm⟩
    | addAttribute k v => exact ⟨[], (List.append_nil _).symm⟩
    | addAnnot d t a => exact ⟨[], (List.append_nil _).symm⟩
    | addLink t sp ty a => exact ⟨[], (List.append_nil _).symm⟩
    | addMessageEvent m i => exact ⟨[], (List.append_nil _).symm⟩
    | setStatus c m => exact ⟨[], (List.append_nil _).symm⟩
    | register l => exact ⟨[], (List.append_nil _).symm⟩
    | unregister l => exact ⟨[], (List.append_nil _).symm⟩
  | startChild cid nm k now =>
    show ∃ ext, (r.startChildSpan cid nm k now).2.1.spans.map _ = _
    by_cases hE : r.base.ended
    · refine ⟨[], ?_⟩
      unfold RootSpan.startChildSpan
      rw [if_pos hE, List.append_nil]
    · by_cases hS : r.base.started
      · rw [startChildSpan_of_live r cid nm k now hE hS]
        exact ⟨[idFields (childAfter r cid nm k now).data], by
          show ((r.spans ++ [childAfter r cid nm k now]).map _) = _
          rw [List.map_append]
          rfl⟩
      · refine ⟨[], ?_⟩
        unfold RootSpan.startChildSpan
        rw [if_neg hE, if_pos hS, List.append_nil]

theorem applyRootOps_spans_take (ops : List RootOp) (r : RootSpan) :
    ((applyRootOps ops r).1.spans.map (fun c => idFields c.data)).take r.spans.length =
      r.spans.map (fun c => idFields c.data) := by
  induction ops generalizing r with
  | nil =>
    show ((r.spans.map _).take _) = _
    exact List.take_of_length_le (by simp)
  | cons op rest ih =>
    obtain ⟨ext, hext⟩ := applyRootOp_spans op r
    have ih2 := ih (applyRootOp op r).1
    have hlen : r.spans.length ≤ (applyRootOp op r).1.spans.length := by
      have hl := congrArg List.length hext
      simp only [List.length_map, List.length_append] at hl
      omega
    show (((applyRootOps rest (applyRootOp op r).1).1.spans.map _).take _) = _
    calc ((applyRootOps rest (applyRootOp op r).1).1.spans.map
            (fun c => idFields c.data)).take r.spans.length
        = (((applyRootOps rest (applyRootOp op r).1).1.spans.map
            (fun c => idFields c.data)).take
              (applyRootOp op r).1.spans.length).take r.spans.length := by
          rw [List.take_take, min_eq_left hlen]
      _ = ((applyRootOp op r).1.spans.map (fun c => idFields c.data)).take
            r.spans.length := by rw [ih2]
      _ = (r.spans.map (fun c => idFields c.data) ++ ext).take r.spans.length := by
          rw [hext]
      _ = r.spans.map (fun c => idFields c.data) := by
          rw [List.take_append_of_le_length (by simp), List.take_of_length_le (by simp)]

/-- Claim C8: a child created by startChildSpan on a live root shares
the root's traceId, has parentSpanId equal to the root's spanId, and is
flagged same-process-as-parent; and no sequence of later operations on
the child changes its traceId, spanId, parentSpanId or
same-process flag, while no sequence of later operations on the root
changes the root's own identity fields (spanId included) or the
identity fields of any child already in its list. -/
theorem claim8_child_identity (r : RootSpan) (cid nm : String) (k : SpanKind)
    (now : Nat) (ops : List SpanOp) (rops : List RootOp)
    (hE : ¬ r.base.ended) (hS : r.base.started) :
    ((r.startChildSpan cid nm k now).1.map fun c => c.data.traceId) =
      some r.base.data.traceId ∧
    ((r.startChildSpan cid nm k now).1.map fun c => c.data.parentSpanId) =
      some r.base.data.spanId ∧
    ((r.startChildSpan cid nm k now).1.map fun c => c.data.sameProcessAsParentSpan) =
      some (some true) ∧
    ((r.startChildSpan cid nm k now).1.map fun c => idFields (applyOps ops c).1.data) =
      ((r.startChildSpan cid nm k now).1.map fun c => idFields c.data) ∧
    idFields (applyRootOps rops (r.startChildSpan cid nm k now).2.1).1.base.data =
      idFields (r.startChildSpan cid nm k now).2.1.base.data ∧
    idFields (r.startChildSpan cid nm k now).2.1.base.data = idFields r.base.data ∧
    ((applyRootOps rops (r.startChildSpan cid nm k now).2.1).1.spans.map
        (fun c => idFields c.data)).take
          (r.startChildSpan cid nm k now).2.1.spans.length =
      (r.startChildSpan cid nm k now).2.1.spans.map (fun c => idFields c.data) := by
  rw [startChildSpan_of_live r cid nm k now hE hS]
  refine ⟨rfl, rfl, rfl, ?_, ?_, rfl, ?_⟩
  · show some (idFields (applyOps ops (childAfter r cid nm k now)).1.data) = _
    rw [applyOps_idFields]
    rfl
  · exact applyRootOps_base_idFields rops _
  · exact applyRootOps_spans_take rops _

/-- Witness for claim C8 at concrete inputs: the live root wLiveRoot,
a concrete operation sequence on the child (a mutator, an unregister, a
restart attempt, an end) and on the root (an attribute write, a second
child creation, an end). -/
theorem claim8_child_identity_witness :
    ¬ wLiveRoot.base.ended ∧ wLiveRoot.base.started ∧
    ((wLiveRoot.startChildSpan "cid" "nm" SpanKind.CLIENT 2).1.map
      fun c => c.data.traceId) = some "rtid" ∧
    ((wLiveRoot.startChildSpan "cid" "nm" SpanKind.CLIENT 2).1.map
      fun c => c.data.parentSpanId) = some "rsid" ∧
    ((wLiveRoot.startChildSpan "cid" "nm" SpanKind.CLIENT 2).1.map
      fun c => idFields (applyOps
        [SpanOp.addAttribute "k" (AttributeValue.str "v"), SpanOp.unregister 3,
          SpanOp.start 7, SpanOp.endOp 8] c).1.data) =
      ((wLiveRoot.startChildSpan "cid" "nm" SpanKind.CLIENT 2).1.map
        fun c => idFields c.data) ∧
    idFields (applyRootOps
        [RootOp.spanOp (SpanOp.setStatus 1 "x"),
          RootOp.startChild "cid2" "nm2" SpanKind.SERVER 4,
          RootOp.spanOp (SpanOp.endOp 6)]
        (wLiveRoot.startChildSpan "cid" "nm" SpanKind.CLIENT 2).2.1).1.base.data =
      idFields (wLiveRoot.startChildSpan "cid" "nm" SpanKind.CLIENT 2).2.1.base.data := by
  have h := claim8_child_identity wLiveRoot "cid" "nm" SpanKind.CLIENT 2
    [SpanOp.addAttribute "k" (AttributeValue.str "v"), SpanOp.unregister 3,
      SpanOp.start 7, SpanOp.endOp 8]
    [RootOp.spanOp (SpanOp.setStatus 1 "x"),
      RootOp.startChild "cid2" "nm2" SpanKind.SERVER 4,
      RootOp.spanOp (SpanOp.endOp 6)]
    (by decide) (by decide)
  exact ⟨by decide, by decide, h.1, h.2.1, h.2.2.2.1, h.2.2.2.2.1⟩

/-! Helper lemmas for the exporter-buffer claim. -/

theorem addToBuffer_no_flush (b : ExporterBuffer) (s : SpanData)
    (h : b.queue.length + 1 ≤ b.bufferSize) :
    (b.addToBuffer s).queue = b.queue ++ [s] ∧
    (b.addToBuffer s).published = b.published ∧
    (b.addToBuffer s).bufferSize = b.bufferSize := by
  have hlt : ¬ b.bufferSize < (b.queue ++ [s]).length := by
    simp only [List.length_append, List.length_cons, List.length_nil]
    omega
  simp only [ExporterBuffer.addToBuffer, if_neg hlt]
  split_ifs <;> exact ⟨rfl, rfl, rfl⟩

theorem addAll_no_flush (rs : List SpanData) (b : ExporterBuffer)
    (h : b.queue.length + rs.length ≤ b.bufferSize) :
    (addAll rs b).queue = b.queue ++ rs ∧
    (addAll rs b).published = b.published ∧
    (addAll rs b).bufferSize = b.bufferSize := by
  induction rs generalizing b with
  | nil => exact ⟨(List.append_nil _).symm, rfl, rfl⟩
  | cons r rest ih =>
    simp only [List.length_cons] at h
    obtain ⟨hq, hp, hn⟩ := addToBuffer_no_flush b r (by omega)
    obtain ⟨hq2, hp2, hn2⟩ := ih (b.addToBuffer r) (by
      rw [hq, hn]
      simp only [List.length_append, List.length_cons, List.length_nil]
      omega)
    refine ⟨?_, ?_, ?_⟩
    · show (addAll rest (b.addToBuffer r)).queue = _
      rw [hq2, hq, List.append_assoc]
      rfl
    · show (addAll rest (b.addToBuffer r)).published = _
      rw [hp2, hp]
    · show (addAll rest (b.addToBuffer r)).bufferSize = _
      rw [hn2, hn]

/-- Claim C2, counterexample to the claim as stated: a fresh buffer of
capacity 3 given exactly 3 records has made no publish call at all and
still holds all 3 records queued — publish is not invoked until a 4th
record arrives. -/
theorem claim2_buffer_counterexample :
    (addAll
      [createSpanData ⟨none, none, none, some "a", none, none, none⟩,
        createSpanData ⟨none, none, none, some "b", none, none, none⟩,
        createSpanData ⟨none, none, none, some "c", none, none, none⟩]
      (mkExporterBuffer 3)).published = [] ∧
    (addAll
      [createSpanData ⟨none, none, none, some "a", none, none, none⟩,
        createSpanData ⟨none, none, none, some "b", none, none, none⟩,
        createSpanData ⟨none, none, none, some "c", none, none, none⟩]
      (mkExporterBuffer 3)).queue =
      [createSpanData ⟨none, none, none, some "a", none, none, none⟩,
        createSpanData ⟨none, none, none, some "b", none, none, none⟩,
        createSpanData ⟨none, none, none, some "c", none, none, none⟩] ∧
    ¬ ((addAll
        [createSpanData ⟨none, none, none, some "a", none, none, none⟩,
          createSpanData ⟨none, none, none, some "b", none, none, none⟩,
          createSpanData ⟨none, none, none, some "c", none, none, none⟩]
        (mkExporterBuffer 3)).published.length = 1 ∧
      (addAll
        [createSpanData ⟨none, none, none, some "a", none, none, none⟩,
          createSpanData ⟨none, none, none, some "b", none, none, none⟩,
          createSpanData ⟨none, none, none, some "c", none, none, none⟩]
        (mkExporterBuffer 3)).queue = []) := by
  decide

/-- Claim C2, amended: a fresh buffer of capacity n given exactly n
records has published nothing and queues all n records in arrival
order; the (n+1)-th record triggers exactly one publish call carrying
all n+1 records in arrival order, after which the queue is empty. -/
theorem claim2_buffer_flush_on_overflow (n : Nat) (rs : List SpanData) (d : SpanData)
    (h : rs.length = n) :
    (addAll rs (mkExporterBuffer n)).published = [] ∧
    (addAll rs (mkExporterBuffer n)).queue = rs ∧
    ((addAll rs (mkExporterBuffer n)).addToBuffer d).published = [rs ++ [d]] ∧
    ((addAll rs (mkExporterBuffer n)).addToBuffer d).queue = [] := by
  obtain ⟨hq, hp, hn⟩ := addAll_no_flush rs (mkExporterBuffer n) (by
    show List.length [] + rs.length ≤ n
    simp [h])
  have hq' : (addAll rs (mkExporterBuffer n)).queue = rs := by
    rw [hq]
    rfl
  have hover : (addAll rs (mkExporterBuffer n)).bufferSize <
      ((addAll rs (mkExporterBuffer n)).queue ++ [d]).length := by
    rw [hn, hq']
    show n < (rs ++ [d]).length
    simp [h]
  refine ⟨by rw [hp]; rfl, hq', ?_, ?_⟩
  · show (ExporterBuffer.addToBuffer _ d).published = _
    simp only [ExporterBuffer.addToBuffer, if_pos hover, ExporterBuffer.flush]
    rw [hp, hq']
    rfl
  · show (ExporterBuffer.addToBuffer _ d).queue = _
    simp only [ExporterBuffer.addToBuffer, if_pos hover, ExporterBuffer.flush]

/-- Witness for the amended claim C2 at concrete inputs: capacity 2,
two records queued without a publish, the third triggers the single
batched publish. -/
theorem claim2_buffer_flush_witness :
    ([createSpanData ⟨none, none, none, some "x", none, none, none⟩,
      createSpanData ⟨none, none, none, some "y", none, none, none⟩] :
        List SpanData).length = 2 ∧
    (addAll
      [createSpanData ⟨none, none, none, some "x", none, none, none⟩,
        createSpanData ⟨none, none, none, some "y", none, none, none⟩]
      (mkExporterBuffer 2)).published = [] ∧
    ((addAll
      [createSpanData ⟨none, none, none, some "x", none, none, none⟩,
        createSpanData ⟨none, none, none, some "y", none, none, none⟩]
      (mkExporterBuffer 2)).addToBuffer
        (createSpanData ⟨none, none, none, some "z", none, none, none⟩)).published =
      [[createSpanData ⟨none, none, none, some "x", none, none, none⟩,
        createSpanData ⟨none, none, none, some "y", none, none, none⟩,
        createSpanData ⟨none, none, none, some "z", none, none, none⟩]] ∧
    ((addAll
      [createSpanData ⟨none, none, none, some "x", none, none, none⟩,
        createSpanData ⟨none, none, none, some "y", none, none, none⟩]
      (mkExporterBuffer 2)).addToBuffer
        (createSpanData ⟨none, none, none, some "z", none, none, none⟩)).queue = [] := by
  have h := claim2_buffer_flush_on_overflow 2
    [createSpanData ⟨none, none, none, some "x", none, none, none⟩,
      createSpanData ⟨none, none, none, some "y", none, none, none⟩]
    (createSpanData ⟨none, none, none, some "z", none, none, none⟩) (by decide)
  exact ⟨by decide, h.1, h.2.2.1, h.2.2.2⟩

/-- Claim C5: on a not-yet-started span, start() sets startTime to the
current time, changes nothing else, and notifies every registered
listener's start hook with the updated record in registration order;
any subsequent start(), whether before or after end(), returns the span
unchanged and notifies nobody. -/
theorem claim5_start_once (s : BaseSpan) (now later m later2 : Nat)
    (hns : ¬ s.started) (hnow : now ≠ UNINITIALIZED_DATE) :
    (s.start now).1 = { s with data := { s.data with startTime := now } } ∧
    (s.start now).2 =
      s.listeners.map (fun l => SpanEvent.mk l false { s.data with startTime := now }) ∧
    (s.start now).1.start later = ((s.start now).1, []) ∧
    ((s.start now).1.endSpan m).1.start later2 = (((s.start now).1.endSpan m).1, []) := by
  have h1 := start_of_not_started s now hns
  have hstarted : (s.start now).1.started := by
    rw [h1]
    exact hnow
  refine ⟨by rw [h1], by rw [h1], start_of_started _ later hstarted, ?_⟩
  apply start_of_started
  show ((s.start now).1.endSpan m).1.data.startTime ≠ UNINITIALIZED_DATE
  rw [endSpan_startTime]
  exact hstarted

/-- Witness for claim C5 at a concrete input: an unstarted span with
one registered listener, started at time 5. -/
theorem claim5_start_once_witness :
    ¬ ((mkBaseSpan "w" emptyPartial).registerSpanEventListener 4).started ∧
    (5 : Nat) ≠ UNINITIALIZED_DATE ∧
    (((mkBaseSpan "w" emptyPartial).registerSpanEventListener 4).start 5).1 =
      { (mkBaseSpan "w" emptyPartial).registerSpanEventListener 4 with
        data := { ((mkBaseSpan "w" emptyPartial).registerSpanEventListener 4).data with
          startTime := 5 } } ∧
    (((mkBaseSpan "w" emptyPartial).registerSpanEventListener 4).start 5).2 =
      ((mkBaseSpan "w" emptyPartial).registerSpanEventListener 4).listeners.map
        (fun l => SpanEvent.mk l false
          { ((mkBaseSpan "w" emptyPartial).registerSpanEventListener 4).data with
            startTime := 5 }) ∧
    ((((mkBaseSpan "w" emptyPartial).registerSpanEventListener 4).start 5).1.start 6) =
      ((((mkBaseSpan "w" emptyPartial).registerSpanEventListener 4).start 5).1, []) ∧
    (((((mkBaseSpan "w" emptyPartial).registerSpanEventListener 4).start 5).1.endSpan
        7).1.start 8) =
      (((((mkBaseSpan "w" emptyPartial).registerSpanEventListener 4).start 5).1.endSpan
        7).1, []) :=
  ⟨by decide, by decide,
    claim5_start_once ((mkBaseSpan "w" emptyPartial).registerSpanEventListener 4)
      5 6 7 8 (by decide) (by decide)⟩
